import Mathlib

/-!
Verification of the Aegilon MEV detection / protection core.

Shallow embedding of:
 - `MEVDetector.sol` (src/unnamed/part_008): state `DetectorState`, operations
   `detectMEV`, `_updateGasHistory`, `_getAverageGasPrice`,
   `_detectFrontRunning`, `_detectArbitragePattern`;
 - `MEVProtector.sol` (`checkPriceAnomaly`, oracle staleness);
 - the subgraph analytics module (src/unnamed/part_003): `detectSandwich`,
   `detectFrontRun`, `detectArbitrage`, `calculateRiskScore`;
 - `MEVProtectorAdvanced.sol`: `protectSwap`, `_applyProtectionStrategy`,
   `_executeSwap`, `_collectProtectionFee`, `_calculateDelay`.

Solidity `uint256` values are modelled as `Nat`; checked arithmetic that can
revert (division by zero, subtraction underflow) is made explicit with
`Except EvmError`.  Storage mappings become total functions updated with
`Function.update`; the fixed-size `gasHistory` array becomes a `List Nat`
of length 100 written with `List.set`.  `block.timestamp`, `tx.gasprice`,
`msg.value` and the RedStone oracle value (`getOracleNumericValueFromTxMsg`)
are not state of the contracts and are passed in as explicit arguments.
-/

/-- Threat classification, mirroring `enum ThreatType` in MEVDetector.sol. -/
inductive ThreatType
  | SANDWICH
  | FRONTRUN
  | ARBITRAGE
  | UNKNOWN
deriving DecidableEq, Repr

/-- An EVM revert outcome: either a Solidity `Panic(code)` (e.g. code 17 =
0x11 arithmetic overflow, code 18 = 0x12 division by zero) or a
`require(..., msg)` style revert carrying a reason string. -/
inductive EvmError
  | panic (code : Nat)
  | reverted (msg : String)
deriving DecidableEq, Repr

/-- A `require`-style revert with a reason string is how this codebase
surfaces input-validation failures; a `Panic` is an unclassified arithmetic
trap. -/
def EvmError.isRequireRevert : EvmError → Bool
  | .reverted _ => true
  | .panic _ => false

/-- Feed identifiers (`bytes32` in the source) are modelled as naturals. -/
abbrev FeedId := Nat

/-- Storage of the `MEVDetector` contract (MEVDetector.sol). -/
structure DetectorState where
  riskThreshold : Nat
  minPriceDelta : Nat
  frontRunGasMultiplier : Nat
  lastPrices : FeedId → Nat
  lastUpdateTimestamp : FeedId → Nat
  gasHistory : List Nat
  gasHistoryIndex : Nat

/-- Constant `GAS_HISTORY_SIZE = 100` from MEVDetector.sol. -/
def GAS_HISTORY_SIZE : Nat := 100

/-- State established by the constructor of MEVDetector.sol: default
thresholds (500 bp, 100 bp, 120 %), empty mappings, and a gas history of
100 zero-initialised slots. -/
def initDetector : DetectorState where
  riskThreshold := 500
  minPriceDelta := 100
  frontRunGasMultiplier := 120
  lastPrices := fun _ => 0
  lastUpdateTimestamp := fun _ => 0
  gasHistory := List.replicate GAS_HISTORY_SIZE 0
  gasHistoryIndex := 0

/-- `_updateGasHistory(gasPrice)`: write the sample at the cursor, advance
the cursor modulo `GAS_HISTORY_SIZE`. -/
def _updateGasHistory (gasPrice : Nat) (s : DetectorState) : DetectorState :=
  { s with
    gasHistory := s.gasHistory.set s.gasHistoryIndex gasPrice
    gasHistoryIndex := (s.gasHistoryIndex + 1) % GAS_HISTORY_SIZE }

/-- `_getAverageGasPrice()`: the source loops over all slots summing and
counting the entries with `gasHistory[i] > 0`, then returns `sum / count`
(or 0 when `count` is 0); the loop is rendered as a filter over the list. -/
def _getAverageGasPrice (s : DetectorState) : Nat :=
  let populated := s.gasHistory.filter (fun g => decide (0 < g))
  if 0 < populated.length then populated.sum / populated.length else 0

/-- `_detectFrontRunning(txGasPrice, avgGasPrice)`:
`txGasPrice > avgGasPrice * frontRunGasMultiplier / 100`. -/
def _detectFrontRunning (txGasPrice avgGasPrice : Nat) (s : DetectorState) : Bool :=
  decide (txGasPrice > avgGasPrice * s.frontRunGasMultiplier / 100)

/-- `_detectArbitragePattern(feedId, currentPrice)`: reads the stored
observation; returns false on the zero sentinel, otherwise flags a change
of more than `minPriceDelta` basis points within 30 seconds.  In the only
call site (inside `detectMEV`) the stored timestamp has just been set to
`block.timestamp`, so the `uint` subtraction `block.timestamp - lastUpdate`
cannot underflow and truncated `Nat` subtraction is faithful. -/
def _detectArbitragePattern (feedId : FeedId) (currentPrice now : Nat)
    (s : DetectorState) : Bool :=
  let lastPrice := s.lastPrices feedId
  let lastUpdate := s.lastUpdateTimestamp feedId
  if lastPrice = 0 ∨ lastUpdate = 0 then
    false
  else if now - lastUpdate ≤ 30 then
    let priceChange := if currentPrice > lastPrice then currentPrice - lastPrice
      else lastPrice - currentPrice
    let changePercentage := priceChange * 10000 / lastPrice
    decide (changePercentage > s.minPriceDelta)
  else
    false

/-- `detectMEV(feedId, expectedPrice, txGasPrice)` from MEVDetector.sol.
`currentPrice` models `getOracleNumericValueFromTxMsg(feedId)` and `now`
models `block.timestamp`.  The function first overwrites
`lastPrices[feedId]` / `lastUpdateTimestamp[feedId]`, then computes the
slippage (Solidity panics with code 0x12 when `expectedPrice` is zero),
records the gas sample, and runs sandwich, front-run and arbitrage checks
in that order, first match winning.  In the front-run branch the risk
score `(txGasPrice - avgGasPrice) * 10000 / avgGasPrice` uses checked
subtraction: when the detector fires with `txGasPrice < avgGasPrice` —
reachable because `setFrontRunGasMultiplier` accepts multipliers below
100 — the call reverts with the 0x11 underflow panic, modelled
explicitly. -/
def detectMEV (feedId : FeedId) (expectedPrice txGasPrice currentPrice now : Nat)
    (s : DetectorState) :
    Except EvmError ((Bool × ThreatType × Nat) × DetectorState) :=
  let s1 : DetectorState :=
    { s with
      lastPrices := Function.update s.lastPrices feedId currentPrice
      lastUpdateTimestamp := Function.update s.lastUpdateTimestamp feedId now }
  let delta := if currentPrice > expectedPrice then currentPrice - expectedPrice
    else expectedPrice - currentPrice
  if expectedPrice = 0 then
    .error (.panic 18)
  else
    let slippagePercentage := delta * 10000 / expectedPrice
    let s2 := _updateGasHistory txGasPrice s1
    if slippagePercentage > s.riskThreshold then
      .ok ((true, .SANDWICH, slippagePercentage), s2)
    else
      let avgGasPrice := _getAverageGasPrice s2
      if 0 < avgGasPrice ∧ _detectFrontRunning txGasPrice avgGasPrice s2 = true then
        if txGasPrice < avgGasPrice then
          .error (.panic 17)
        else
          .ok ((true, .FRONTRUN, (txGasPrice - avgGasPrice) * 10000 / avgGasPrice), s2)
      else if _detectArbitragePattern feedId currentPrice now s2 = true then
        .ok ((true, .ARBITRAGE, 300), s2)
      else
        .ok ((false, .UNKNOWN, 0), s2)

/-- The `uint256` range bound, used where a theorem must restrict itself
to inputs on which the unbounded-`Nat` model agrees with the checked
256-bit arithmetic of the source. -/
def UINT256_MAX : Nat := 2 ^ 256 - 1

/-- The complete storage mutation a successful `detectMEV` performs:
price map and timestamp map overwritten at `feedId`, the gas sample written
at the cursor, the cursor advanced modulo 100. -/
def mutatedDetector (feedId currentPrice now txGasPrice : Nat)
    (s : DetectorState) : DetectorState :=
  { s with
    lastPrices := Function.update s.lastPrices feedId currentPrice
    lastUpdateTimestamp := Function.update s.lastUpdateTimestamp feedId now
    gasHistory := s.gasHistory.set s.gasHistoryIndex txGasPrice
    gasHistoryIndex := (s.gasHistoryIndex + 1) % GAS_HISTORY_SIZE }

/-- Storage of `MEVProtector.sol` relevant to oracle freshness. -/
structure ProtectorState where
  lastOraclePrices : String → Nat
  lastOracleUpdate : String → Nat
  priceDeviationThreshold : Nat

/-- `checkPriceAnomaly(symbol, currentPrice)` from MEVProtector.sol:
`require(oraclePrice > 0, "No oracle price available")`,
`require(block.timestamp - lastOracleUpdate[symbol] < 300, "Oracle price too old")`
(the checked `uint` subtraction panics with 0x11 if the stored update lies
in the future), then the deviation in basis points against the stored
oracle price, compared strictly with `priceDeviationThreshold`. -/
def checkPriceAnomaly (symbol : String) (currentPrice now : Nat)
    (st : ProtectorState) : Except EvmError Bool :=
  let oraclePrice := st.lastOraclePrices symbol
  if oraclePrice = 0 then
    .error (.reverted "No oracle price available")
  else if now < st.lastOracleUpdate symbol then
    .error (.panic 17)
  else if now - st.lastOracleUpdate symbol < 300 then
    let deviation := if currentPrice > oraclePrice then
        (currentPrice - oraclePrice) * 10000 / oraclePrice
      else
        (oraclePrice - currentPrice) * 10000 / oraclePrice
    .ok (decide (deviation > st.priceDeviationThreshold))
  else
    .error (.reverted "Oracle price too old")

/-! ## Subgraph analytics module (src/unnamed/part_003) -/

/-- A transaction entity as consumed by the analytics detectors: target
address (`to` is nullable), value, gas price and timestamp; graph-ts
`BigInt` values are modelled as naturals (all uses here are non-negative). -/
structure Transaction where
  hash : Nat
  toAddr : Option Nat
  value : Nat
  gasPrice : Nat
  timestamp : Nat
deriving DecidableEq, Repr

/-- Constant `FRONT_RUN_GAS_MULTIPLIER = 115` from the analytics module. -/
def FRONT_RUN_GAS_MULTIPLIER : Nat := 115

/-- Constant `SANDWICH_TIME_WINDOW = 5` (seconds). -/
def SANDWICH_TIME_WINDOW : Nat := 5

/-- The null-guarded target comparison
`recentTx.to && transaction.to && recentTx.to!.equals(transaction.to!)`
shared by the sandwich and front-run analytics detectors. -/
def sharesTarget (recentTx transaction : Transaction) : Bool :=
  match recentTx.toAddr, transaction.toAddr with
  | some a, some b => a == b
  | _, _ => false

/-- `detectSandwich(transaction, blockTimestamp)`: some recent transaction
has the same target, lies within the 5-second window, and used a gas price
strictly above the current transaction's.  `BigInt.minus` on timestamps is
signed; a non-positive difference satisfies `le(5)` exactly as the
truncated `Nat` subtraction does. -/
def detectSandwich (transaction : Transaction) (blockTimestamp : Nat)
    (recentTransactions : List Transaction) : Bool :=
  recentTransactions.any fun recentTx =>
    sharesTarget recentTx transaction
    && decide (blockTimestamp - recentTx.timestamp ≤ SANDWICH_TIME_WINDOW)
    && decide (recentTx.gasPrice > transaction.gasPrice)

/-- `detectFrontRun(transaction, avgGasPrice)`: gas price strictly above
`avgGasPrice * 115 / 100` and some recent transaction shares the target. -/
def detectFrontRun (transaction : Transaction) (avgGasPrice : Nat)
    (recentTransactions : List Transaction) : Bool :=
  let gasThreshold := avgGasPrice * FRONT_RUN_GAS_MULTIPLIER / 100
  if transaction.gasPrice > gasThreshold then
    recentTransactions.any fun recentTx => sharesTarget recentTx transaction
  else
    false

/-- `detectArbitrage(transaction, blockTimestamp)`: value above 1 ETH
(10^18) and a positive gas price; `blockTimestamp` is unused in the
source but kept in the signature. -/
def detectArbitrage (transaction : Transaction) (blockTimestamp : Nat) : Bool :=
  decide (transaction.value > 1000000000000000000)
  && decide (transaction.gasPrice > 0)

/-- Gas-ratio tier of `calculateRiskScore` (0, 10, 20 or 30 points).  The
source computes `gasRatio = gasPrice / avgGasPrice` as an exact BigDecimal
and compares against 2.0 / 1.5 / 1.2; under the `avgGasPrice > 0` guard
those comparisons are rendered exactly as integer cross-multiplications. -/
def gasTierPoints (gasPrice avgGasPrice : Nat) : Nat :=
  if 0 < avgGasPrice then
    if gasPrice > 2 * avgGasPrice then 30
    else if 2 * gasPrice > 3 * avgGasPrice then 20
    else if 5 * gasPrice > 6 * avgGasPrice then 10
    else 0
  else 0

/-- Value tier of `calculateRiskScore` (0, 15 or 25 points). -/
def valueTierPoints (value : Nat) : Nat :=
  if value > 10000000000000000000 then 25
  else if value > 1000000000000000000 then 15
  else 0

/-- `calculateRiskScore(transaction, avgGasPrice, blockTimestamp)`: gas tier
plus value tier plus weighted detector contributions (+25 sandwich,
+20 front-run, +15 arbitrage), capped at 100.  All contributions are small
integers, so the source's f64 accumulator and
`Math.floor(Math.min(score, 100))` are exact and reduce to `min _ 100`. -/
def calculateRiskScore (transaction : Transaction) (avgGasPrice blockTimestamp : Nat)
    (recentTransactions : List Transaction) : Nat :=
  let base := gasTierPoints transaction.gasPrice avgGasPrice
    + valueTierPoints transaction.value
    + (if detectSandwich transaction blockTimestamp recentTransactions then 25 else 0)
    + (if detectFrontRun transaction avgGasPrice recentTransactions then 20 else 0)
    + (if detectArbitrage transaction blockTimestamp then 15 else 0)
  min base 100

/-! ## MEVProtectorAdvanced.sol -/

/-- `enum ProtectionStrategy` from MEVProtectorAdvanced.sol. -/
inductive ProtectionStrategy
  | REVERT
  | ADJUST
  | DELAY
  | PRIVATE_RELAY
deriving DecidableEq, Repr

/-- `struct ProtectionConfig`. -/
structure ProtectionConfig where
  isActive : Bool
  strategy : ProtectionStrategy
  maxSlippage : Nat
  gasLimit : Nat
  whitelistMode : Bool
deriving DecidableEq, Repr

/-- `struct SwapParams` (addresses as naturals). -/
structure SwapParams where
  tokenIn : Nat
  tokenOut : Nat
  amountIn : Nat
  minAmountOut : Nat
  pricefeedId : FeedId
  deadline : Nat
  recipient : Nat
deriving DecidableEq, Repr

/-- `struct ProtectionStats`. -/
structure ProtectionStats where
  totalProtectedSwaps : Nat
  threatsDetected : Nat
  threatsBlocked : Nat
  totalValueProtected : Nat
  feesCollected : Nat
deriving DecidableEq, Repr

/-- Party of an ERC20 transfer: an external account/address, or the
protector contract itself (`address(this)`). -/
inductive Addr
  | external (a : Nat)
  | contractSelf
deriving DecidableEq, Repr

/-- Storage of MEVProtectorAdvanced.sol plus the embedded detector and an
explicit log of the token / native transfers the contract performs
(`transfers`: token, from, to, amount; `ethTransfers`: recipient, amount). -/
structure AdvancedState where
  detector : DetectorState
  userConfigs : Nat → ProtectionConfig
  userStats : Nat → ProtectionStats
  whitelistedTokens : Nat → Bool
  priceDelays : FeedId → Nat
  globalStats : ProtectionStats
  protectionFee : Nat
  treasury : Nat
  transfers : List (Nat × Addr × Addr × Nat)
  ethTransfers : List (Nat × Nat)

/-- `_calculateDelay(threatType, riskScore)`. -/
def _calculateDelay (threatType : ThreatType) (riskScore : Nat) : Nat :=
  match threatType with
  | .SANDWICH => 30 + riskScore / 100
  | .FRONTRUN => 15 + riskScore / 200
  | .ARBITRAGE => 5 + riskScore / 500
  | .UNKNOWN => 10

/-- `_applyProtectionStrategy(strategy, params, threatType, riskScore)`:
returns the `blocked` flag; DELAY additionally records a retry-not-before
timestamp in `priceDelays` keyed by the feed id. -/
def _applyProtectionStrategy (strategy : ProtectionStrategy) (params : SwapParams)
    (threatType : ThreatType) (riskScore now : Nat) (w : AdvancedState) :
    Bool × AdvancedState :=
  match strategy with
  | .REVERT => (true, w)
  | .ADJUST => (false, w)
  | .DELAY =>
    (true, { w with priceDelays := (Function.update w.priceDelays params.pricefeedId
        (now + _calculateDelay threatType riskScore)) })
  | .PRIVATE_RELAY => (false, w)

/-- `_estimateUSDValue(token, amount)`: the source returns `amount` (1:1). -/
def _estimateUSDValue (token amount : Nat) : Nat := amount

/-- `_executeSwap(params, config)`: escrows `amountIn` from the sender,
computes `amountOut = amountIn * currentPrice / 1e18` from the oracle,
refunds when `amountOut < minAmountOut`, then computes `expectedOut` by the
same formula, the basis-point slippage of `amountOut` against it, and
refunds when that exceeds `config.maxSlippage`; otherwise reports success.
`oracle` models `detector.getCurrentPrice`. -/
def _executeSwap (params : SwapParams) (config : ProtectionConfig)
    (oracle : FeedId → Nat) (sender : Nat) (w : AdvancedState) :
    (Bool × Nat) × AdvancedState :=
  let w1 : AdvancedState := { w with transfers := w.transfers ++
    [(params.tokenIn, Addr.external sender, Addr.contractSelf, params.amountIn)] }
  let currentPrice := oracle params.pricefeedId
  let amountOut := params.amountIn * currentPrice / 1000000000000000000
  if amountOut < params.minAmountOut then
    ((false, 0), { w1 with transfers := w1.transfers ++
      [(params.tokenIn, Addr.contractSelf, Addr.external sender, params.amountIn)] })
  else
    let expectedOut := params.amountIn * currentPrice / 1000000000000000000
    let slippage := if expectedOut > amountOut then
        (expectedOut - amountOut) * 10000 / expectedOut
      else 0
    if slippage > config.maxSlippage then
      ((false, 0), { w1 with transfers := w1.transfers ++
        [(params.tokenIn, Addr.contractSelf, Addr.external sender, params.amountIn)] })
    else
      ((true, amountOut), w1)

/-- `_collectProtectionFee(amountIn)`: fee in basis points of the input
amount, forwarded to the treasury when enough native value was attached. -/
def _collectProtectionFee (amountIn msgValue : Nat) (w : AdvancedState) :
    Nat × AdvancedState :=
  let feeAmount := amountIn * w.protectionFee / 10000
  if feeAmount ≤ msgValue then
    (feeAmount, { w with ethTransfers := w.ethTransfers ++ [(w.treasury, feeAmount)] })
  else
    (feeAmount, w)

/-- The tail of `protectSwap` after the threat gate (source lines 214-245):
execute the swap; on success collect the protection fee and update the
value/fee statistics. -/
def _settleSwap (params : SwapParams) (config : ProtectionConfig)
    (sender msgValue : Nat) (oracle : FeedId → Nat) (w : AdvancedState) :
    Except EvmError ((Bool × Nat) × AdvancedState) :=
  let ex := _executeSwap params config oracle sender w
  if ex.1.1 then
    let fee := _collectProtectionFee params.amountIn msgValue ex.2
    let w5 : AdvancedState := { fee.2 with
      globalStats := { fee.2.globalStats with
        totalValueProtected := fee.2.globalStats.totalValueProtected
          + _estimateUSDValue params.tokenIn params.amountIn
        feesCollected := fee.2.globalStats.feesCollected + fee.1 }
      userStats := Function.update fee.2.userStats sender
        { fee.2.userStats sender with
          totalValueProtected := (fee.2.userStats sender).totalValueProtected
            + _estimateUSDValue params.tokenIn params.amountIn
          feesCollected := (fee.2.userStats sender).feesCollected + fee.1 } }
    .ok (ex.1, w5)
  else
    .ok (ex.1, ex.2)

/-- `protectSwap(params)` from MEVProtectorAdvanced.sol: the four guard
`require`s, detection via `detectMEV` (with `expectedPrice` taken from the
oracle itself, so a detector revert bubbles up), statistics updates, the
strategy dispatch on a threat — a blocked swap returns `(false, 0)`
normally — and otherwise the execution/settlement tail. -/
def protectSwap (params : SwapParams) (sender now txGasPrice msgValue : Nat)
    (oracle : FeedId → Nat) (w : AdvancedState) :
    Except EvmError ((Bool × Nat) × AdvancedState) :=
  if params.deadline < now then .error (.reverted "Swap expired")
  else if params.amountIn = 0 then .error (.reverted "Invalid amount")
  else
    let config := w.userConfigs sender
    if config.isActive = false then .error (.reverted "Protection not configured")
    else if config.whitelistMode && !(w.whitelistedTokens params.tokenIn) then
      .error (.reverted "Token not whitelisted")
    else if config.whitelistMode && !(w.whitelistedTokens params.tokenOut) then
      .error (.reverted "Token not whitelisted")
    else
      let expectedPrice := oracle params.pricefeedId
      match detectMEV params.pricefeedId expectedPrice txGasPrice
          (oracle params.pricefeedId) now w.detector with
      | .error e => .error e
      | .ok ((isThreat, threatType, riskScore), d') =>
        let w1 : AdvancedState := { w with
          detector := d'
          globalStats := { w.globalStats with
            totalProtectedSwaps := w.globalStats.totalProtectedSwaps + 1 }
          userStats := Function.update w.userStats sender
            { w.userStats sender with
              totalProtectedSwaps := (w.userStats sender).totalProtectedSwaps + 1 } }
        if isThreat then
          let w2 : AdvancedState := { w1 with
            globalStats := { w1.globalStats with
              threatsDetected := w1.globalStats.threatsDetected + 1 }
            userStats := Function.update w1.userStats sender
              { w1.userStats sender with
                threatsDetected := (w1.userStats sender).threatsDetected + 1 } }
          let applied := _applyProtectionStrategy config.strategy params
            threatType riskScore now w2
          if applied.1 then
            let w4 : AdvancedState := { applied.2 with
              globalStats := { applied.2.globalStats with
                threatsBlocked := applied.2.globalStats.threatsBlocked + 1 }
              userStats := Function.update applied.2.userStats sender
                { applied.2.userStats sender with
                  threatsBlocked := (applied.2.userStats sender).threatsBlocked + 1 } }
            .ok ((false, 0), w4)
          else
            _settleSwap params config sender msgValue oracle applied.2
        else
          _settleSwap params config sender msgValue oracle w1

/-! ## Proof infrastructure -/

/-- When the stored observation for `feedId` already equals the pair
(`currentPrice`, `now`) — which is exactly the situation inside `detectMEV`,
which overwrites the maps before calling the detector — the arbitrage
pattern check is false: the price change against itself is zero. -/
lemma detectArbitragePattern_self (feedId cp now : Nat) (s : DetectorState)
    (hp : s.lastPrices feedId = cp) (ht : s.lastUpdateTimestamp feedId = now) :
    _detectArbitragePattern feedId cp now s = false := by
  simp only [_detectArbitragePattern]
  rw [hp, ht]
  split
  · rfl
  · split
    · simp
    · rfl

/-- Closed form of `detectMEV`: for nonzero `expectedPrice` it returns the
sandwich / front-run / no-threat verdict (the arbitrage branch is dead
because the detector reads the observation just overwritten) paired with
the fully mutated state. -/
lemma detectMEV_closed (feedId ep gp cp now : Nat) (s : DetectorState) :
    detectMEV feedId ep gp cp now s =
      if ep = 0 then .error (.panic 18)
      else if (if cp > ep then cp - ep else ep - cp) * 10000 / ep > s.riskThreshold then
        .ok ((true, .SANDWICH, (if cp > ep then cp - ep else ep - cp) * 10000 / ep),
          mutatedDetector feedId cp now gp s)
      else if 0 < _getAverageGasPrice (mutatedDetector feedId cp now gp s)
          ∧ _detectFrontRunning gp (_getAverageGasPrice (mutatedDetector feedId cp now gp s))
            (mutatedDetector feedId cp now gp s) = true then
        if gp < _getAverageGasPrice (mutatedDetector feedId cp now gp s) then
          .error (.panic 17)
        else
          .ok ((true, .FRONTRUN,
              (gp - _getAverageGasPrice (mutatedDetector feedId cp now gp s)) * 10000
                / _getAverageGasPrice (mutatedDetector feedId cp now gp s)),
            mutatedDetector feedId cp now gp s)
      else
        .ok ((false, .UNKNOWN, 0), mutatedDetector feedId cp now gp s) := by
  have hmut : _updateGasHistory gp
      { s with
        lastPrices := Function.update s.lastPrices feedId cp
        lastUpdateTimestamp := Function.update s.lastUpdateTimestamp feedId now }
      = mutatedDetector feedId cp now gp s := rfl
  have hp : (mutatedDetector feedId cp now gp s).lastPrices feedId = cp := by
    simp [mutatedDetector, Function.update_same]
  have ht : (mutatedDetector feedId cp now gp s).lastUpdateTimestamp feedId = now := by
    simp [mutatedDetector, Function.update_same]
  simp only [detectMEV, hmut,
    detectArbitragePattern_self feedId cp now (mutatedDetector feedId cp now gp s) hp ht]
  simp

/-- Verdict computed by `detectMEV`, as a function that never consults the
price / timestamp maps of the pre-call state (proof device for the claims
about state independence of the verdict). -/
def detectVerdict (ep gp cp : Nat) (s : DetectorState) :
    Except EvmError (Bool × ThreatType × Nat) :=
  if ep = 0 then .error (.panic 18)
  else if (if cp > ep then cp - ep else ep - cp) * 10000 / ep > s.riskThreshold then
    .ok (true, .SANDWICH, (if cp > ep then cp - ep else ep - cp) * 10000 / ep)
  else if 0 < _getAverageGasPrice (_updateGasHistory gp s)
      ∧ _detectFrontRunning gp (_getAverageGasPrice (_updateGasHistory gp s))
        (_updateGasHistory gp s) = true then
    if gp < _getAverageGasPrice (_updateGasHistory gp s) then
      .error (.panic 17)
    else
      .ok (true, .FRONTRUN, (gp - _getAverageGasPrice (_updateGasHistory gp s)) * 10000
        / _getAverageGasPrice (_updateGasHistory gp s))
  else
    .ok (false, .UNKNOWN, 0)

/-- The verdict component of `detectMEV` equals `detectVerdict`. -/
lemma detectMEV_verdict (feedId ep gp cp now : Nat) (s : DetectorState) :
    (detectMEV feedId ep gp cp now s).map (fun p => p.1) = detectVerdict ep gp cp s := by
  rw [detectMEV_closed]
  have h1 : _getAverageGasPrice (mutatedDetector feedId cp now gp s)
      = _getAverageGasPrice (_updateGasHistory gp s) := rfl
  have h2 : ∀ a, _detectFrontRunning gp a (mutatedDetector feedId cp now gp s)
      = _detectFrontRunning gp a (_updateGasHistory gp s) := fun _ => rfl
  simp only [detectVerdict, h1, h2]
  split_ifs <;> rfl

/-! ## Claims -/

/-- Feed state in which a previous observation (price 2000 at time 1000)
exists for feed 0 — the scenario of the arbitrage claim: ten seconds later
the oracle reports 2030 (a 1.48 percent move, above the 100 bp
`minPriceDelta`, within the 30 s window). -/
def arbScenarioState : DetectorState :=
  { initDetector with
    lastPrices := Function.update (fun _ => 0) 0 2000
    lastUpdateTimestamp := Function.update (fun _ => 0) 0 1000 }

/-- C1: the arbitrage branch of `detectMEV` is dead code.  `detectMEV`
overwrites `lastPrices[feedId]` / `lastUpdateTimestamp[feedId]` with the
current observation before `_detectArbitragePattern` reads them, so the
detector always compares the current price with itself and can never
return `ARBITRAGE` — contradicting the claimed behaviour (which requires
the detector to consume the pre-update snapshot).  The second conjunct
evaluates the claim's own scenario: previous observation 2000 at t=1000,
new observation 2030 at t=1010 (1.48 % > 1 % within 30 s, no sandwich, no
front-run) still yields `(false, UNKNOWN, 0)` instead of ARBITRAGE. -/
theorem C1_arbitrage_branch_dead :
    (∀ (feedId ep gp cp now : Nat) (s : DetectorState) (b : Bool)
        (t : ThreatType) (r : Nat) (s' : DetectorState),
      detectMEV feedId ep gp cp now s = .ok ((b, t, r), s') →
      t ≠ ThreatType.ARBITRAGE)
    ∧ (detectMEV 0 2030 0 2030 1010 arbScenarioState).toOption.map Prod.fst
        = some (false, ThreatType.UNKNOWN, 0) := by
  constructor
  · intro feedId ep gp cp now s b t r s' h
    rw [detectMEV_closed] at h
    split_ifs at h
    all_goals
      first
      | exact Except.noConfusion h
      | (simp only [Except.ok.injEq, Prod.mk.injEq] at h
         obtain ⟨⟨-, ht, -⟩, -⟩ := h
         subst ht
         decide)
  · decide

/-- Witness for C1: a concrete completed `detectMEV` call, classified
`UNKNOWN`, hence not `ARBITRAGE`. -/
theorem C1_arbitrage_branch_dead_witness :
    ThreatType.UNKNOWN ≠ ThreatType.ARBITRAGE :=
  C1_arbitrage_branch_dead.1 0 2000 0 2100 1000 initDetector false
    ThreatType.UNKNOWN 0 _ rfl

/-- C3: with a nonzero expected price, a completed `detectMEV` call is
classified `SANDWICH` exactly when
`|observed - expected| * 10000 / expected` strictly exceeds
`riskThreshold` (and then `isThreat` is true and the risk score is that
slippage); at the boundary it does not fire.  On the default
configuration (`riskThreshold = 500`): expected 2000 and observed 2100
give slippage 500 and no threat, observed 2101 gives slippage 505 and a
`SANDWICH` threat with score 505. -/
theorem C3_sandwich_iff_strict :
    (∀ (feedId ep gp cp now : Nat) (s : DetectorState) (b : Bool)
        (t : ThreatType) (r : Nat) (s' : DetectorState),
      0 < ep →
      detectMEV feedId ep gp cp now s = .ok ((b, t, r), s') →
      ((t = ThreatType.SANDWICH ↔
          (if cp > ep then cp - ep else ep - cp) * 10000 / ep > s.riskThreshold)
        ∧ ((if cp > ep then cp - ep else ep - cp) * 10000 / ep > s.riskThreshold →
            b = true ∧ r = (if cp > ep then cp - ep else ep - cp) * 10000 / ep)))
    ∧ (detectMEV 0 2000 0 2100 1000 initDetector).toOption.map Prod.fst
        = some (false, ThreatType.UNKNOWN, 0)
    ∧ (detectMEV 0 2000 0 2101 1000 initDetector).toOption.map Prod.fst
        = some (true, ThreatType.SANDWICH, 505) := by
  refine ⟨?_, by decide, by decide⟩
  intro feedId ep gp cp now s b t r s' hep h
  rw [detectMEV_closed] at h
  set slip := (if cp > ep then cp - ep else ep - cp) * 10000 / ep with hslip
  split_ifs at h with h0 hs hf
  · simp only [Except.ok.injEq, Prod.mk.injEq] at h
    obtain ⟨⟨hb, ht, hr⟩, -⟩ := h
    subst ht
    exact ⟨by simp [hs], fun _ => ⟨hb.symm, hr.symm⟩⟩
  · simp only [Except.ok.injEq, Prod.mk.injEq] at h
    obtain ⟨⟨hb, ht, hr⟩, -⟩ := h
    subst ht
    exact ⟨by simp [hs], fun hc => absurd hc hs⟩
  · simp only [Except.ok.injEq, Prod.mk.injEq] at h
    obtain ⟨⟨hb, ht, hr⟩, -⟩ := h
    subst ht
    exact ⟨by simp [hs], fun hc => absurd hc hs⟩

/-- Witness for C3: the firing side of the boundary example (slippage 505
against threshold 500). -/
theorem C3_sandwich_iff_strict_witness :
    (ThreatType.SANDWICH = ThreatType.SANDWICH ↔
      (if 2101 > 2000 then 2101 - 2000 else 2000 - 2101) * 10000 / 2000
        > initDetector.riskThreshold)
    ∧ ((if 2101 > 2000 then 2101 - 2000 else 2000 - 2101) * 10000 / 2000
        > initDetector.riskThreshold →
      true = true ∧ 505 = (if 2101 > 2000 then 2101 - 2000 else 2000 - 2101)
        * 10000 / 2000) :=
  C3_sandwich_iff_strict.1 0 2000 0 2101 1000 initDetector true
    ThreatType.SANDWICH 505 _ (by decide) rfl

/-- C4 counterexample: at `expectedPrice = 0` the call does not raise a
dedicated `InvalidInput` validation error — `detectMEV` has no zero check
and the division `delta * 10000 / expectedPrice` traps with the Solidity
arithmetic panic 0x12, which is not a `require`-style classified error. -/
theorem C4_counterexample :
    detectMEV 0 0 0 2000 5 initDetector = .error (.panic 18)
    ∧ EvmError.isRequireRevert (.panic 18) = false :=
  ⟨rfl, rfl⟩

/-- C4 amended: for every positive expected price `detectMEV` never fails
with the division-by-zero panic 0x12 — every division it performs has a
nonzero divisor (`expectedPrice`, the literal 100, a positively guarded
`avgGasPrice`, a positively guarded `lastPrice`, a positively guarded
count) — though the call is not guaranteed to complete (the front-run
branch can still revert with the 0x11 underflow panic when the configured
multiplier is below 100).  At `expectedPrice = 0` the call never silently
returns false: whenever `delta * 10000` fits in a uint256 (Solidity's
checked multiplication precedes the division, so a larger `delta` would
trap with 0x11 first — hence the bound), it reverts with exactly the
division-by-zero panic 0x12, a raw arithmetic panic rather than a
dedicated `InvalidInput` validation error. -/
theorem C4_no_div_by_zero :
    ∀ (feedId ep gp cp now : Nat) (s : DetectorState),
      (0 < ep → detectMEV feedId ep gp cp now s ≠ .error (.panic 18))
      ∧ (ep = 0 → cp * 10000 ≤ UINT256_MAX →
          detectMEV feedId ep gp cp now s = .error (.panic 18)) := by
  intro feedId ep gp cp now s
  constructor
  · intro hep
    rw [detectMEV_closed]
    split_ifs with h0
    · exact absurd h0 (by omega)
    all_goals simp
  · intro h0 hcp
    rw [detectMEV_closed, if_pos h0]

/-- Witness for C4: a concrete nonzero expected price is no
division-by-zero failure; the zero expected price (with a small oracle
price, inside the uint256-faithful range) is exactly the 0x12 panic. -/
theorem C4_no_div_by_zero_witness :
    detectMEV 0 7 0 9 11 initDetector ≠ .error (.panic 18)
    ∧ detectMEV 0 0 0 9 11 initDetector = .error (.panic 18) :=
  ⟨(C4_no_div_by_zero 0 7 0 9 11 initDetector).1 (by decide),
   (C4_no_div_by_zero 0 0 0 9 11 initDetector).2 rfl (by decide)⟩

/-- C5 counterexample: the analytics-path `detectFrontRun` CAN fire with a
rolling gas average of 0.  With `avgGasPrice = 0` the threshold
`0 * 115 / 100` degenerates to 0, so a transaction with gas price 1 whose
target matches a tracked recent transaction is flagged. -/
theorem C5_counterexample :
    detectFrontRun ⟨0, some 7, 0, 1, 0⟩ 0 [⟨1, some 7, 0, 5, 0⟩] = true := by
  decide

/-- C5 amended: the inline path honours the cold-start rule — a completed
`detectMEV` call whose post-record rolling average is 0 is never
classified `FRONTRUN` (the code guards with `avgGasPrice > 0`), for any
incoming gas price.  The analytics-path `detectFrontRun`, however, fires
at average 0 exactly when the transaction's gas price is positive and
some tracked recent transaction shares its target. -/
theorem C5_cold_start :
    (∀ (feedId ep gp cp now : Nat) (s : DetectorState) (b : Bool)
        (t : ThreatType) (r : Nat) (s' : DetectorState),
      detectMEV feedId ep gp cp now s = .ok ((b, t, r), s') →
      _getAverageGasPrice s' = 0 →
      t ≠ ThreatType.FRONTRUN)
    ∧ (∀ (tx : Transaction) (recent : List Transaction),
        detectFrontRun tx 0 recent
          = (decide (0 < tx.gasPrice)
              && recent.any fun rt => sharesTarget rt tx)) := by
  constructor
  · intro feedId ep gp cp now s b t r s' h havg
    rw [detectMEV_closed] at h
    set slip := (if cp > ep then cp - ep else ep - cp) * 10000 / ep with hslip
    split_ifs at h with h0 hs hf
    · simp only [Except.ok.injEq, Prod.mk.injEq] at h
      obtain ⟨⟨-, ht, -⟩, -⟩ := h
      subst ht
      decide
    · simp only [Except.ok.injEq, Prod.mk.injEq] at h
      obtain ⟨⟨-, -, -⟩, hst⟩ := h
      rw [← hst] at havg
      exact absurd havg (by omega)
    · simp only [Except.ok.injEq, Prod.mk.injEq] at h
      obtain ⟨⟨-, ht, -⟩, -⟩ := h
      subst ht
      decide
  · intro tx recent
    by_cases hgp : tx.gasPrice > 0 <;>
      simp [detectFrontRun, FRONT_RUN_GAS_MULTIPLIER, hgp]

/-- Witness for C5: a concrete completed call (gas price 0 on a fresh
detector, so even the post-record average is 0) classified `UNKNOWN`. -/
theorem C5_cold_start_witness : ThreatType.UNKNOWN ≠ ThreatType.FRONTRUN :=
  C5_cold_start.1 0 2000 0 2100 1000 initDetector false ThreatType.UNKNOWN 0
    _ rfl (by decide)

/-- Filtering the positive entries out of an all-zero list gives nothing. -/
lemma filter_pos_replicate_zero (n : Nat) :
    (List.replicate n 0).filter (fun g => decide (0 < g)) = [] := by
  induction n with
  | zero => rfl
  | succ n ih => simp [List.replicate_succ, List.filter_cons, ih]

/-- C6: on the never-written history the average is 0; recording a single
positive sample `g` into the fresh 100-slot history makes the average
exactly `g` — the 99 remaining zero sentinel slots are excluded from both
the sum and the count; in particular a single `record(20e9)` gives
average `20e9`. -/
theorem C6_average_ignores_sentinels :
    _getAverageGasPrice initDetector = 0
    ∧ (∀ g : Nat, 0 < g →
        _getAverageGasPrice (_updateGasHistory g initDetector) = g)
    ∧ _getAverageGasPrice (_updateGasHistory 20000000000 initDetector)
        = 20000000000 := by
  refine ⟨by decide, ?_, by decide⟩
  intro g hg
  have hgh : (_updateGasHistory g initDetector).gasHistory
      = g :: List.replicate 99 0 := by
    show (List.replicate GAS_HISTORY_SIZE 0).set 0 g = g :: List.replicate 99 0
    rw [show GAS_HISTORY_SIZE = 99 + 1 from rfl, List.replicate_succ]
    rfl
  unfold _getAverageGasPrice
  rw [hgh]
  simp [List.filter_cons, hg, filter_pos_replicate_zero]

/-- Witness for C6: recording the single sample 5 gives average 5. -/
theorem C6_average_ignores_sentinels_witness :
    _getAverageGasPrice (_updateGasHistory 5 initDetector) = 5 :=
  C6_average_ignores_sentinels.2.1 5 (by decide)

/-- C9: every `detectMEV` call that completes — including the ones that
return `(false, UNKNOWN, 0)` — has performed the full write set: the
feed's stored price and timestamp overwritten with the current
observation, the gas sample written into the ring-buffer slot at the
cursor, and the cursor advanced modulo 100; and the resulting state
always differs from the initial one (the cursor moves), so no completed
evaluation is read-only.  (A reverting call — zero expected price, or the
front-run underflow panic — rolls back and returns no state.) -/
theorem C9_detectMEV_always_mutates :
    ∀ (feedId ep gp cp now : Nat) (s : DetectorState)
      (v : Bool × ThreatType × Nat) (s' : DetectorState),
      detectMEV feedId ep gp cp now s = .ok (v, s') →
      s.gasHistoryIndex < GAS_HISTORY_SIZE →
      s' = mutatedDetector feedId cp now gp s ∧ s' ≠ s := by
  intro feedId ep gp cp now s v s' h hi
  have hs' : s' = mutatedDetector feedId cp now gp s := by
    rw [detectMEV_closed] at h
    split_ifs at h
    all_goals
      first
      | exact Except.noConfusion h
      | (simp only [Except.ok.injEq, Prod.mk.injEq] at h
         exact h.2.symm)
  refine ⟨hs', ?_⟩
  rw [hs']
  intro hcontra
  have hidx : (mutatedDetector feedId cp now gp s).gasHistoryIndex
      = s.gasHistoryIndex := by rw [hcontra]
  simp only [mutatedDetector, GAS_HISTORY_SIZE] at hidx
  rw [show GAS_HISTORY_SIZE = 100 from rfl] at hi
  omega

/-- Witness for C9: a concrete completed no-threat call has performed the
full write set and changed the state. -/
theorem C9_detectMEV_always_mutates_witness :
    mutatedDetector 0 2100 1000 0 initDetector
        = mutatedDetector 0 2100 1000 0 initDetector
      ∧ mutatedDetector 0 2100 1000 0 initDetector ≠ initDetector :=
  C9_detectMEV_always_mutates 0 2000 0 2100 1000 initDetector
    (false, ThreatType.UNKNOWN, 0) (mutatedDetector 0 2100 1000 0 initDetector)
    rfl (by decide)

/-- C8: `checkPriceAnomaly` refuses to use a stored oracle price whose
last update is 300 or more seconds old, failing with the distinct
"Oracle price too old" revert (distinct from the missing-price revert);
and the inline `detectMEV` verdict is entirely independent of the feed's
previously stored observation — the maps are overwritten before any read
— so the inline path can never base a verdict on an observation older
than 300 seconds (it only ever consults the observation written in the
same call). -/
theorem C8_stale_oracle_rejected :
    (∀ (symbol : String) (cp now : Nat) (st : ProtectorState),
      st.lastOraclePrices symbol ≠ 0 →
      st.lastOracleUpdate symbol ≤ now →
      300 ≤ now - st.lastOracleUpdate symbol →
      checkPriceAnomaly symbol cp now st
        = .error (.reverted "Oracle price too old")
        ∧ EvmError.isRequireRevert (.reverted "Oracle price too old") = true)
    ∧ (∀ (feedId ep gp cp now : Nat) (s : DetectorState)
        (lp lut : FeedId → Nat),
      (detectMEV feedId ep gp cp now
          { s with lastPrices := lp, lastUpdateTimestamp := lut }).map
            (fun p => p.1)
        = (detectMEV feedId ep gp cp now s).map (fun p => p.1)) := by
  constructor
  · intro symbol cp now st h1 h2 h3
    refine ⟨?_, rfl⟩
    simp only [checkPriceAnomaly]
    rw [if_neg h1, if_neg (by omega), if_neg (by omega)]
  · intro feedId ep gp cp now s lp lut
    rw [detectMEV_verdict, detectMEV_verdict]
    rfl

/-- Witness for C8: a price stored at t=100 is rejected as stale at t=400. -/
theorem C8_stale_oracle_rejected_witness :
    checkPriceAnomaly "ETH" 7 400
        (⟨fun _ => 5, fun _ => 100, 50⟩ : ProtectorState)
      = .error (.reverted "Oracle price too old")
    ∧ EvmError.isRequireRevert (.reverted "Oracle price too old") = true :=
  C8_stale_oracle_rejected.1 "ETH" 7 400 ⟨fun _ => 5, fun _ => 100, 50⟩
    (by decide) (by decide) (by decide)

/-- C7 counterexample: the analytics score is NOT monotone in the
gas-price-to-average ratio.  With average 100 and a tracked recent
transaction to the same target at gas price 300, raising the
transaction's gas price from 299 (ratio 2.99, score 30+25+20 = 75) to 301
(ratio 3.01) un-fires the sandwich heuristic (which requires the recent
gas price to exceed the current one) and the score drops to 30+20 = 50. -/
theorem C7_counterexample :
    calculateRiskScore ⟨0, some 1, 0, 301, 100⟩ 100 100 [⟨1, some 1, 0, 300, 100⟩]
      < calculateRiskScore ⟨0, some 1, 0, 299, 100⟩ 100 100 [⟨1, some 1, 0, 300, 100⟩] := by
  decide

/-- Rising gas price never lowers the gas-ratio tier. -/
lemma gasTierPoints_mono (avg g1 g2 : Nat) (h : g1 ≤ g2) :
    gasTierPoints g1 avg ≤ gasTierPoints g2 avg := by
  unfold gasTierPoints
  split_ifs <;> omega

/-- Rising value never lowers the value tier. -/
lemma valueTierPoints_mono (v1 v2 : Nat) (h : v1 ≤ v2) :
    valueTierPoints v1 ≤ valueTierPoints v2 := by
  unfold valueTierPoints
  split_ifs <;> omega

/-- C7 amended: the analytics risk score is always at most 100 (it is a
natural number, so also at least 0); holding everything else fixed it is
monotone non-decreasing in the transaction value; and it is monotone
non-decreasing in the transaction gas price (hence in the
gas-price-to-average ratio) provided no tracked recent transaction shares
the transaction's target — the case the counterexample exhibits, where
the sandwich heuristic compares the recent gas price against the current
one and can un-fire as the gas price rises. -/
theorem C7_score_clamped_and_monotone :
    (∀ (tx : Transaction) (avg now : Nat) (recent : List Transaction),
      calculateRiskScore tx avg now recent ≤ 100)
    ∧ (∀ (tx : Transaction) (avg now : Nat) (recent : List Transaction)
        (v1 v2 : Nat),
      v1 ≤ v2 →
      calculateRiskScore { tx with value := v1 } avg now recent
        ≤ calculateRiskScore { tx with value := v2 } avg now recent)
    ∧ (∀ (tx : Transaction) (avg now : Nat) (recent : List Transaction)
        (g1 g2 : Nat),
      g1 ≤ g2 →
      (∀ rt ∈ recent, sharesTarget rt tx = false) →
      calculateRiskScore { tx with gasPrice := g1 } avg now recent
        ≤ calculateRiskScore { tx with gasPrice := g2 } avg now recent) := by
  refine ⟨?_, ?_, ?_⟩
  · intro tx avg now recent
    simp only [calculateRiskScore]
    exact Nat.min_le_right _ _
  · intro tx avg now recent v1 v2 hv
    have harb : (if detectArbitrage { tx with value := v1 } now then 15 else 0)
        ≤ (if detectArbitrage { tx with value := v2 } now then 15 else 0) := by
      by_cases h1 : detectArbitrage { tx with value := v1 } now
      · have h2 : detectArbitrage { tx with value := v2 } now = true := by
          simp only [detectArbitrage, Bool.and_eq_true, decide_eq_true_eq] at h1 ⊢
          exact ⟨by omega, h1.2⟩
        simp [h1, h2]
      · simp [h1]
    simp only [calculateRiskScore]
    refine min_le_min ?_ le_rfl
    exact Nat.add_le_add (Nat.add_le_add (Nat.add_le_add
      (Nat.add_le_add le_rfl (valueTierPoints_mono v1 v2 hv)) le_rfl) le_rfl) harb
  · intro tx avg now recent g1 g2 hg hnt
    have hshares : ∀ (rt : Transaction) (g : Nat),
        sharesTarget rt { tx with gasPrice := g } = sharesTarget rt tx :=
      fun _ _ => rfl
    have hsand : ∀ g, detectSandwich { tx with gasPrice := g } now recent = false := by
      intro g
      simp only [detectSandwich, List.any_eq_false]
      intro rt hrt
      simp [hshares, hnt rt hrt]
    have hfr : ∀ g, detectFrontRun { tx with gasPrice := g } avg recent = false := by
      intro g
      simp only [detectFrontRun]
      split
      · simp only [List.any_eq_false]
        intro rt hrt
        simp [hshares, hnt rt hrt]
      · rfl
    have harb : (if detectArbitrage { tx with gasPrice := g1 } now then 15 else 0)
        ≤ (if detectArbitrage { tx with gasPrice := g2 } now then 15 else 0) := by
      by_cases h1 : detectArbitrage { tx with gasPrice := g1 } now
      · have h2 : detectArbitrage { tx with gasPrice := g2 } now = true := by
          simp only [detectArbitrage, Bool.and_eq_true, decide_eq_true_eq] at h1 ⊢
          exact ⟨h1.1, by omega⟩
        simp [h1, h2]
      · simp [h1]
    simp only [calculateRiskScore]
    refine min_le_min ?_ le_rfl
    refine Nat.add_le_add (Nat.add_le_add (Nat.add_le_add (Nat.add_le_add
      (gasTierPoints_mono avg g1 g2 hg) le_rfl) ?_) ?_) harb
    · rw [hsand g1, hsand g2]
    · rw [hfr g1, hfr g2]

/-- Witness for C7: the monotonicity-in-value component at a concrete
transaction (value 1 against value 2 ether, empty recent list). -/
theorem C7_score_clamped_and_monotone_witness :
    calculateRiskScore ⟨0, some 1, 1, 10, 5⟩ 4 5 []
      ≤ calculateRiskScore ⟨0, some 1, 2000000000000000000, 10, 5⟩ 4 5 [] :=
  C7_score_clamped_and_monotone.2.1 ⟨0, some 1, 0, 10, 5⟩ 4 5 []
    1 2000000000000000000 (by decide)

/-- Protector world for the C2 scenario: a REVERT-strategy configuration
for every caller, a detector whose gas history holds one prior sample of
100 (cursor at 1), no whitelist mode, nothing escrowed. -/
def revertScenarioWorld : AdvancedState where
  detector := { initDetector with
    gasHistory := (List.replicate GAS_HISTORY_SIZE 0).set 0 100
    gasHistoryIndex := 1 }
  userConfigs := fun _ => ⟨true, .REVERT, 100, 200000, false⟩
  userStats := fun _ => ⟨0, 0, 0, 0, 0⟩
  whitelistedTokens := fun _ => false
  priceDelays := fun _ => 0
  globalStats := ⟨0, 0, 0, 0, 0⟩
  protectionFee := 100
  treasury := 99
  transfers := []
  ethTransfers := []

/-- Swap request for the C2 scenario: 1000 units in, deadline 10,
feed 0, no declared minimum output. -/
def revertScenarioParams : SwapParams := ⟨1, 2, 1000, 0, 0, 10, 0⟩

/-- C2 counterexample: all pre-dispatch guards pass (deadline 10 ≥ now 5,
amount 1000 > 0, configuration active, whitelist off), the detector
reports a front-run threat (gas price 10000 against rolling average 5050,
risk score 9801), the caller's strategy is REVERT — and yet `protectSwap`
does NOT fail with any error, let alone a distinguishable
`ThreatDetected` one: no such error exists in the contract; the call
returns normally with `(success = false, amountOut = 0)`. -/
theorem C2_counterexample :
    (revertScenarioWorld.userConfigs 5).strategy = ProtectionStrategy.REVERT
    ∧ (detectMEV 0 2000 10000 2000 5 revertScenarioWorld.detector).toOption.map
        Prod.fst = some (true, ThreatType.FRONTRUN, 9801)
    ∧ (protectSwap revertScenarioParams 5 5 10000 0 (fun _ => 2000)
        revertScenarioWorld).toOption.map Prod.fst = some (false, 0) := by
  refine ⟨rfl, by decide, by decide⟩

/-- C2 amended: when the guards pass, the detector reports a threat and
the caller's strategy is REVERT, `protectSwap` blocks the swap — it
returns normally with `(false, 0)` (signalled by the return value and the
`ThreatMitigated` event, not by a revert with a `ThreatDetected` error),
`_executeSwap` is never reached, and no token or native transfer is
performed, so there are never escrowed funds to return. -/
theorem C2_revert_blocks_without_error :
    ∀ (params : SwapParams) (sender now gp mv : Nat) (oracle : FeedId → Nat)
      (w : AdvancedState) (t : ThreatType) (r : Nat) (d' : DetectorState),
      ¬ params.deadline < now →
      params.amountIn ≠ 0 →
      (w.userConfigs sender).isActive = true →
      ((w.userConfigs sender).whitelistMode
        && !(w.whitelistedTokens params.tokenIn)) = false →
      ((w.userConfigs sender).whitelistMode
        && !(w.whitelistedTokens params.tokenOut)) = false →
      (w.userConfigs sender).strategy = ProtectionStrategy.REVERT →
      detectMEV params.pricefeedId (oracle params.pricefeedId) gp
          (oracle params.pricefeedId) now w.detector = .ok ((true, t, r), d') →
      (protectSwap params sender now gp mv oracle w).map
          (fun p => (p.1, p.2.transfers, p.2.ethTransfers))
        = .ok ((false, 0), w.transfers, w.ethTransfers) := by
  intro params sender now gp mv oracle w t r d' h1 h2 h3 h4 h5 h6 hdet
  simp only [protectSwap, hdet, h6, _applyProtectionStrategy]
  rw [if_neg h1, if_neg h2]
  simp [h3, h4, h5, Except.map]

/-- Witness for C2: the scenario call, blocked with `(false, 0)` and an
unchanged transfer log. -/
theorem C2_revert_blocks_without_error_witness :
    (protectSwap revertScenarioParams 5 5 10000 0 (fun _ => 2000)
        revertScenarioWorld).map
        (fun p => (p.1, p.2.transfers, p.2.ethTransfers))
      = .ok ((false, 0), revertScenarioWorld.transfers,
          revertScenarioWorld.ethTransfers) :=
  C2_revert_blocks_without_error revertScenarioParams 5 5 10000 0
    (fun _ => 2000) revertScenarioWorld ThreatType.FRONTRUN 9801 _
    (by decide) (by decide) rfl rfl rfl rfl rfl

/-- C10: in `_executeSwap` the expected output and the realized output are
the same expression `amountIn * currentPrice / 1e18`, so the computed
slippage is 0, the refund branch guarded by
`slippage > config.maxSlippage` can never be taken, and the whole function
reduces to the `minAmountOut` test: refund (escrow in, escrow back)
exactly when `amountOut < minAmountOut`, success otherwise — the result
does not depend on `config.maxSlippage` at all. -/
theorem C10_config_slippage_branch_unreachable :
    ∀ (params : SwapParams) (config : ProtectionConfig) (oracle : FeedId → Nat)
      (sender : Nat) (w : AdvancedState),
      _executeSwap params config oracle sender w =
        (if params.amountIn * oracle params.pricefeedId / 1000000000000000000
            < params.minAmountOut then
          ((false, 0), { w with transfers := (w.transfers
            ++ [(params.tokenIn, Addr.external sender, Addr.contractSelf,
                  params.amountIn)])
            ++ [(params.tokenIn, Addr.contractSelf, Addr.external sender,
                  params.amountIn)] })
        else
          ((true, params.amountIn * oracle params.pricefeedId
              / 1000000000000000000),
            { w with transfers := w.transfers
              ++ [(params.tokenIn, Addr.external sender, Addr.contractSelf,
                    params.amountIn)] })) := by
  intro params config oracle sender w
  simp only [_executeSwap]
  split
  · rfl
  · simp [Nat.lt_irrefl, Nat.not_lt_zero]
